import Mathlib

/-!
Verification of `gnome-search-providers-jetbrains` (`src/main.rs`).

The file embeds, as executable Lean definitions, the parts of
`start_dbus_service`, `app` and `main` that the specification's claims are
about: the per-provider bounded mailbox, the mutex-guarded per-application
disabled flag (Enable Gate), the per-provider IO thread pools, the startup
registry construction, the connection build chain, the settings-change
listener kept alive by `forget`, and the `--providers` CLI mode.
-/

namespace JetbrainsSearch

/-! ## Actor mailbox (main.rs line 75: `mpsc::channel(8)`) -/

/-- The buffer size passed to `mpsc::channel` at main.rs line 75. -/
def MAILBOX_CAPACITY : Nat := 8

/-- A per-application actor mailbox: the pending messages of the bounded
channel created at main.rs line 75, oldest first. -/
structure Mailbox (α : Type) where
  pending : List α
deriving Repr, DecidableEq

/-- Outcome of one send attempt on a bounded mailbox. -/
inductive SendOutcome (α : Type) where
  /-- The message was appended to the queue. -/
  | enqueued (mb : Mailbox α)
  /-- The sender is parked: the mailbox is unchanged and the sender still
  holds the message to retry once a slot frees. There is no outcome that
  drops the message and none that reports an error. -/
  | suspended (mb : Mailbox α) (msg : α)
deriving Repr, DecidableEq

/-- Modelled from the spec: the bounded-channel send of the mailbox library
(`futures_channel::mpsc`, not part of this repository's sources). A send
with fewer than `MAILBOX_CAPACITY` pending messages appends in FIFO order;
a send on a full mailbox suspends the sender, keeping both the queue and
the message intact. -/
def Mailbox.send {α : Type} (mb : Mailbox α) (msg : α) : SendOutcome α :=
  if mb.pending.length < MAILBOX_CAPACITY then
    .enqueued ⟨mb.pending ++ [msg]⟩
  else
    .suspended mb msg

/-- Modelled from the spec: the receive side of the mailbox; the single
actor task dequeues the oldest message. -/
def Mailbox.recv {α : Type} (mb : Mailbox α) : Option (α × Mailbox α) :=
  match mb.pending with
  | [] => none
  | m :: rest => some (m, ⟨rest⟩)

/-! ## Enable Gate (main.rs lines 97-115 and 171-190) -/

/-- The warning emitted by the settings-change handler when the lock for an
application cannot be acquired (main.rs lines 183-188). -/
def lockWarning (app_id : String) : String :=
  "Lock for app " ++ app_id ++ " cannot be acquired, disable state remains"

/-- The settings-change handler's write to one application's disabled flag
(main.rs lines 180-189): on `Ok` the guard is set to membership of the app
id in the new disabled list and nothing is logged; on `Err` the value is
left unchanged and a warning is the only effect. Returns the new stored
value together with the emitted warnings. -/
def gateSet (disabled_apps : List String) (app_id : String) (lockOk : Bool)
    (current : Bool) : Bool × List String :=
  if lockOk then (disabled_apps.contains app_id, [])
  else (current, [lockWarning app_id])

/-- The whole settings-change callback body (main.rs lines 171-190): it
iterates over `app_disabled_state` and applies `gateSet` to every entry. -/
def onSettingsChanged (disabled_apps : List String) (lockOk : String → Bool)
    (gates : List (String × Bool)) : List (String × Bool) :=
  gates.map (fun p => (p.1, (gateSet disabled_apps p.1 (lockOk p.1) p.2).1))

/-- Modelled from the spec: the default of `App.disabled` (the `App` type
lives in `gnome_search_provider_common`, outside this repository's
sources); an application starts enabled, i.e. `disabled = false`. -/
def APP_DISABLED_DEFAULT : Bool := false

/-- Startup initialization of one application's disabled flag (main.rs
lines 97-115): on `Ok` the guard is set from the startup snapshot of the
disabled list; on `Err` a warning says the app "will be searched for
projects" and the flag keeps its enabled default. -/
def initGate (disabled_apps : List String) (app_id : String) (lockOk : Bool) : Bool :=
  if lockOk then disabled_apps.contains app_id else APP_DISABLED_DEFAULT

/-- Modelled from the spec: the actor-side read of the gate (it lives in
`searchprovider.rs` / the common library, outside `src/`): a `try`-style
read that returns the stored value when the lock is available and treats
the application as enabled (`disabled = false`) when it is not, without
blocking. -/
def gateGet (lockOk : Bool) (value : Bool) : Bool :=
  if lockOk then value else false

/-- Whether the actor will search the application for projects: it does so
exactly when the gate does not read disabled. -/
def searchAllowed (lockOk : Bool) (value : Bool) : Bool :=
  !(gateGet lockOk value)

/-! ## Claims C1-C4 -/

/-- C1: each actor mailbox is a bounded ordered channel of capacity exactly
8; a sender enqueueing a 9th message while 8 are pending suspends until a
slot frees, and the message is neither dropped nor rejected with an error:
the suspended outcome keeps the mailbox and the message intact, and after
one message is received the retried send enqueues the message at the tail
(FIFO). -/
theorem mailbox_backpressure (mb : Mailbox Nat) (msg : Nat)
    (h : mb.pending.length = 8) :
    MAILBOX_CAPACITY = 8 ∧
    mb.send msg = .suspended mb msg ∧
    (∀ m' mb', mb.recv = some (m', mb') →
      mb'.send msg = .enqueued ⟨mb'.pending ++ [msg]⟩) := by
  refine ⟨rfl, ?_, ?_⟩
  · simp [Mailbox.send, h, MAILBOX_CAPACITY]
  · intro m' mb' hrecv
    match hm : mb.pending with
    | [] => simp [Mailbox.recv, hm] at hrecv
    | m :: rest =>
      simp [Mailbox.recv, hm] at hrecv
      obtain ⟨-, hmb'⟩ := hrecv
      have hlen : mb'.pending.length = 7 := by
        have : rest.length = 7 := by
          have := h; rw [hm] at this; simpa using this
        rw [← hmb']; simpa using this
      simp [Mailbox.send, hlen, MAILBOX_CAPACITY]

/-- Witness for C1 at a concrete full mailbox. -/
theorem mailbox_backpressure_witness :
    (Mailbox.mk [0, 1, 2, 3, 4, 5, 6, 7]).pending.length = 8 ∧
    (MAILBOX_CAPACITY = 8 ∧
      (Mailbox.mk [0, 1, 2, 3, 4, 5, 6, 7]).send 9 =
        .suspended (Mailbox.mk [0, 1, 2, 3, 4, 5, 6, 7]) 9 ∧
      (∀ m' mb', (Mailbox.mk [0, 1, 2, 3, 4, 5, 6, 7]).recv = some (m', mb') →
        mb'.send 9 = .enqueued ⟨mb'.pending ++ [9]⟩)) :=
  ⟨by decide, mailbox_backpressure (Mailbox.mk [0, 1, 2, 3, 4, 5, 6, 7]) 9 (by decide)⟩

/-- C2: after the settings-change handler processes a new disabled list
`D`, every registry entry whose lock could be acquired stores exactly the
membership of its application id in `D`. -/
theorem settings_change_sets_membership (D : List String) (lockOk : String → Bool)
    (gates : List (String × Bool)) (p : String × Bool)
    (hp : p ∈ onSettingsChanged D lockOk gates)
    (hlock : lockOk p.1 = true) : p.2 = D.contains p.1 := by
  simp only [onSettingsChanged, List.mem_map] at hp
  obtain ⟨q, -, hq⟩ := hp
  subst hq
  simp [gateSet, hlock]

/-- Witness for C2 on a concrete registry and disabled list. -/
theorem settings_change_sets_membership_witness :
    (("idea", true) ∈ onSettingsChanged ["idea"] (fun _ => true)
        [("idea", false), ("clion", true)] ∧
      (fun _ : String => true) ("idea", true).1 = true) ∧
    (("idea", true) : String × Bool).2 = List.contains ["idea"] ("idea", true).1 :=
  ⟨⟨by decide, rfl⟩,
   settings_change_sets_membership ["idea"] (fun _ => true)
     [("idea", false), ("clion", true)] ("idea", true) (by decide) rfl⟩

/-- C3: when the settings-change handler cannot acquire an application's
lock, the update is dropped: the stored value is exactly the previous one
and the single warning is the only observable effect. -/
theorem gate_write_lock_failure (D : List String) (app_id : String) (current : Bool) :
    (gateSet D app_id false current).1 = current ∧
    (gateSet D app_id false current).2 = [lockWarning app_id] := by
  constructor <;> simp [gateSet]

/-- C4: the gate is fail-open on the read/initialization side: at startup a
lock failure leaves the flag at its enabled default (`false`) and the app
is searched for projects, and the (non-blocking, total) reader treats the
application as enabled whenever the lock cannot be acquired, whatever the
stored value. -/
theorem gate_fail_open (D : List String) (app_id : String) (value : Bool) :
    initGate D app_id false = false ∧
    APP_DISABLED_DEFAULT = false ∧
    gateGet false value = false ∧
    searchAllowed false value = true := by
  refine ⟨?_, rfl, ?_, ?_⟩ <;> simp [initGate, gateGet, searchAllowed, APP_DISABLED_DEFAULT]

/-! ## IO thread pools (main.rs lines 79-92) -/

/-- A glib thread pool handle: `ThreadPool::shared(Some(2))` calls
`g_thread_pool_new(.., max_threads, exclusive = false, ..)`, so every call
creates a new, distinct pool whose own `max_threads` bounds how many of
its tasks run concurrently (non-exclusive pools only reuse idle OS threads
among each other; the concurrency cap is per pool). -/
structure ThreadPool where
  maxThreads : Nat
deriving Repr, DecidableEq

/-- The pools created by the startup loop (main.rs lines 70-92): the call
`glib::ThreadPool::shared(Some(2))` sits inside the `for provider in
PROVIDERS` loop, so one fresh pool of `max_threads = 2` is created per
installed provider and handed to that provider's actor. -/
def startupPools (catalog : List String) (installed : String → Bool) :
    List ThreadPool :=
  (catalog.filter installed).map (fun _ => ⟨2⟩)

/-- The maximal number of blocking project-index reads that can run at the
same time across all actors: the sum of the per-pool caps, since the pools
are distinct and each bounds only its own tasks. -/
def totalReadConcurrencyCap (pools : List ThreadPool) : Nat :=
  (pools.map (fun p => p.maxThreads)).sum

/-! ## Startup registry (main.rs lines 70-132) -/

/-- One entry of the static provider catalog `PROVIDERS` (defined in
`providers.rs`): its desktop id and the object path `objpath()` derives
from it. -/
structure ProviderEntry where
  desktop_id : String
  objpath : String
deriving Repr, DecidableEq

/-- What the startup loop accumulates: the mailbox senders pushed into
`search_services` (one actor task each), the gate cells pushed into
`app_disabled_state`, and the object paths at which a search provider and
its extensions are served. -/
structure Startup where
  mailboxes : List (String × Mailbox Nat)
  gates : List (String × Bool)
  served : List String
deriving Repr, DecidableEq

/-- The registry built by the startup loop (main.rs lines 70-132), written
as the loop is: each catalog entry whose desktop app is installed appends
a fresh empty mailbox, a gate initialized from the startup snapshot, and
its object path; a not-installed entry appends nothing. -/
def startupBuild (catalog : List ProviderEntry) (installed : String → Bool)
    (disabled_apps : List String) (lockOk : String → Bool) : Startup :=
  match catalog with
  | [] => ⟨[], [], []⟩
  | p :: rest =>
    let s := startupBuild rest installed disabled_apps lockOk
    if installed p.desktop_id then
      ⟨(p.desktop_id, ⟨[]⟩) :: s.mailboxes,
       (p.desktop_id, initGate disabled_apps p.desktop_id (lockOk p.desktop_id)) :: s.gates,
       p.objpath :: s.served⟩
    else
      s

/-! ## Process lifetime after startup (main.rs lines 171-194) -/

/-- The state of the running process after startup: the gate cells, the
served object paths, and whether the settings-change subscription
registered at main.rs line 171 is still connected. -/
structure ProcState where
  gates : List (String × Bool)
  served : List String
  listenerActive : Bool

/-- Events after startup that touch this state: a settings-change
notification (carrying the new disabled list and which locks are
acquirable at that moment) or any other request, which leaves the gates,
the served paths and the subscription alone. -/
inductive Event where
  | settingsChanged (D : List String) (lockOk : String → Bool)
  | otherRequest

/-- One step of the running process: a settings-change notification runs
the connected callback (main.rs lines 171-190) over every gate; if the
subscription had been dropped the notification would not be delivered. -/
def step (s : ProcState) : Event → ProcState
  | .settingsChanged D lockOk =>
    if s.listenerActive then
      { s with gates := onSettingsChanged D lockOk s.gates }
    else s
  | .otherRequest => s

/-- Run a sequence of post-startup events. -/
def runEvents (s : ProcState) (trace : List Event) : ProcState :=
  trace.foldl step s

/-- main.rs line 192: `forget(settings)` is called, so the `Settings`
value is leaked instead of dropped. -/
def SETTINGS_FORGOTTEN : Bool := true

/-- End of `start_dbus_service`: dropping `settings` would disconnect the
changed-signal listener; because the code forgets it instead, the
subscription stays connected. -/
def finishStartup (s : ProcState) : ProcState :=
  if SETTINGS_FORGOTTEN then { s with listenerActive := true }
  else { s with listenerActive := false }

/-- The process state right after `start_dbus_service` returns. -/
def afterStartup (catalog : List ProviderEntry) (installed : String → Bool)
    (disabled_apps : List String) (lockOk : String → Bool) : ProcState :=
  let s := startupBuild catalog installed disabled_apps lockOk
  finishStartup ⟨s.gates, s.served, true⟩

/-! ## Helper lemmas -/

theorem startupBuild_mailboxKeys (catalog : List ProviderEntry)
    (installed : String → Bool) (D0 : List String) (lockOk : String → Bool) :
    (startupBuild catalog installed D0 lockOk).mailboxes.map Prod.fst
      = (catalog.filter (fun q => installed q.desktop_id)).map (fun q => q.desktop_id) := by
  induction catalog with
  | nil => rfl
  | cons p rest ih =>
    cases h : installed p.desktop_id <;>
      simp [startupBuild, h, List.filter_cons, ih]

theorem startupBuild_gateKeys (catalog : List ProviderEntry)
    (installed : String → Bool) (D0 : List String) (lockOk : String → Bool) :
    (startupBuild catalog installed D0 lockOk).gates.map Prod.fst
      = (catalog.filter (fun q => installed q.desktop_id)).map (fun q => q.desktop_id) := by
  induction catalog with
  | nil => rfl
  | cons p rest ih =>
    cases h : installed p.desktop_id <;>
      simp [startupBuild, h, List.filter_cons, ih]

theorem startupBuild_served (catalog : List ProviderEntry)
    (installed : String → Bool) (D0 : List String) (lockOk : String → Bool) :
    (startupBuild catalog installed D0 lockOk).served
      = (catalog.filter (fun q => installed q.desktop_id)).map (fun q => q.objpath) := by
  induction catalog with
  | nil => rfl
  | cons p rest ih =>
    cases h : installed p.desktop_id <;>
      simp [startupBuild, h, List.filter_cons, ih]

theorem onSettingsChanged_keys (D : List String) (lockOk : String → Bool)
    (gates : List (String × Bool)) :
    (onSettingsChanged D lockOk gates).map Prod.fst = gates.map Prod.fst := by
  simp [onSettingsChanged, List.map_map, Function.comp]

theorem step_listenerActive (s : ProcState) (e : Event) :
    (step s e).listenerActive = s.listenerActive := by
  cases e with
  | settingsChanged D lockOk => by_cases h : s.listenerActive <;> simp [step, h]
  | otherRequest => rfl

theorem step_served (s : ProcState) (e : Event) :
    (step s e).served = s.served := by
  cases e with
  | settingsChanged D lockOk => by_cases h : s.listenerActive <;> simp [step, h]
  | otherRequest => rfl

theorem step_gateKeys (s : ProcState) (e : Event) :
    (step s e).gates.map Prod.fst = s.gates.map Prod.fst := by
  cases e with
  | settingsChanged D lockOk =>
    by_cases h : s.listenerActive <;> simp [step, h, onSettingsChanged_keys]
  | otherRequest => rfl

theorem runEvents_listenerActive (trace : List Event) :
    ∀ s : ProcState, (runEvents s trace).listenerActive = s.listenerActive := by
  induction trace with
  | nil => intro s; rfl
  | cons e rest ih =>
    intro s
    show (runEvents (step s e) rest).listenerActive = s.listenerActive
    rw [ih (step s e), step_listenerActive]

theorem runEvents_served (trace : List Event) :
    ∀ s : ProcState, (runEvents s trace).served = s.served := by
  induction trace with
  | nil => intro s; rfl
  | cons e rest ih =>
    intro s
    show (runEvents (step s e) rest).served = s.served
    rw [ih (step s e), step_served]

theorem runEvents_gateKeys (trace : List Event) :
    ∀ s : ProcState, (runEvents s trace).gates.map Prod.fst = s.gates.map Prod.fst := by
  induction trace with
  | nil => intro s; rfl
  | cons e rest ih =>
    intro s
    show (runEvents (step s e) rest).gates.map Prod.fst = s.gates.map Prod.fst
    rw [ih (step s e), step_gateKeys]

theorem pools_capSum (l : List ProviderEntry) :
    totalReadConcurrencyCap (l.map (fun _ => (⟨2⟩ : ThreadPool))) = 2 * l.length := by
  induction l with
  | nil => rfl
  | cons a t ih =>
    simp only [totalReadConcurrencyCap, List.map_map, List.map_cons, List.sum_cons,
      List.length_cons, Function.comp] at ih ⊢
    omega

theorem startupBuild_mem_installed (catalog : List ProviderEntry)
    (installed : String → Bool) (D0 : List String) (lockOk : String → Bool)
    (p : ProviderEntry) (hp : p ∈ catalog) (hi : installed p.desktop_id = true) :
    (p.desktop_id, (⟨[]⟩ : Mailbox Nat))
        ∈ (startupBuild catalog installed D0 lockOk).mailboxes ∧
    (p.desktop_id, initGate D0 p.desktop_id (lockOk p.desktop_id))
        ∈ (startupBuild catalog installed D0 lockOk).gates ∧
    p.objpath ∈ (startupBuild catalog installed D0 lockOk).served := by
  induction catalog with
  | nil => cases hp
  | cons q rest ih =>
    rcases List.mem_cons.mp hp with hq | hrest
    · subst hq
      simp [startupBuild, hi]
    · have hr := ih hrest
      cases h : installed q.desktop_id
      · simpa [startupBuild, h] using hr
      · refine ⟨?_, ?_, ?_⟩ <;> simp [startupBuild, h]
        · exact Or.inr hr.1
        · exact Or.inr hr.2.1
        · exact Or.inr hr.2.2

/-! ## Claims C5, C6, C10 -/

/-- C5 (evaluating the code): the pool constructor sits inside the
per-provider startup loop, so the number of pools equals the number of
installed providers and the total read-concurrency cap is 2 per installed
provider — with two installed applications there are two pools and up to 4
concurrent blocking reads, not one shared pool with a total cap of 2. -/
theorem io_pool_per_application :
    (∀ (catalog : List String) (installed : String → Bool),
      (startupPools catalog installed).length = (catalog.filter installed).length ∧
      totalReadConcurrencyCap (startupPools catalog installed)
        = 2 * (catalog.filter installed).length) ∧
    (startupPools ["idea.desktop", "clion.desktop"] (fun _ => true)).length = 2 ∧
    totalReadConcurrencyCap
      (startupPools ["idea.desktop", "clion.desktop"] (fun _ => true)) = 4 := by
  refine ⟨fun catalog installed => ⟨by simp [startupPools], ?_⟩, by decide, by decide⟩
  have h := pools_capSum ((catalog.filter installed).map
    (fun d => (⟨d, ""⟩ : ProviderEntry)))
  simp only [totalReadConcurrencyCap, startupPools, List.map_map, List.length_map,
    Function.comp] at h ⊢
  exact h

/-- C6: the startup registry holds exactly the installed catalog entries:
an installed entry contributes its (empty) mailbox, its gate initialized
from the startup snapshot, and its object path; a not-installed entry's id
appears in no mailbox or gate key and the served paths are exactly those of
the installed entries; and no post-startup event changes the set of gate
keys or served paths. -/
theorem registry_exactly_installed (catalog : List ProviderEntry)
    (installed : String → Bool) (D0 : List String) (lockOk : String → Bool)
    (p : ProviderEntry) (hp : p ∈ catalog) :
    ((startupBuild catalog installed D0 lockOk).served
      = (catalog.filter (fun q => installed q.desktop_id)).map (fun q => q.objpath)) ∧
    (installed p.desktop_id = true →
      (p.desktop_id, (⟨[]⟩ : Mailbox Nat))
          ∈ (startupBuild catalog installed D0 lockOk).mailboxes ∧
      (p.desktop_id, initGate D0 p.desktop_id (lockOk p.desktop_id))
          ∈ (startupBuild catalog installed D0 lockOk).gates ∧
      p.objpath ∈ (startupBuild catalog installed D0 lockOk).served) ∧
    (installed p.desktop_id = false →
      p.desktop_id ∉ ((startupBuild catalog installed D0 lockOk).mailboxes.map Prod.fst) ∧
      p.desktop_id ∉ ((startupBuild catalog installed D0 lockOk).gates.map Prod.fst)) ∧
    (∀ trace : List Event,
      (runEvents (afterStartup catalog installed D0 lockOk) trace).gates.map Prod.fst
        = (startupBuild catalog installed D0 lockOk).gates.map Prod.fst ∧
      (runEvents (afterStartup catalog installed D0 lockOk) trace).served
        = (startupBuild catalog installed D0 lockOk).served) := by
  refine ⟨startupBuild_served catalog installed D0 lockOk, ?_, ?_, ?_⟩
  · intro hi
    exact startupBuild_mem_installed catalog installed D0 lockOk p hp hi
  · intro hi
    constructor
    · rw [startupBuild_mailboxKeys]
      intro hmem
      simp only [List.mem_map, List.mem_filter] at hmem
      obtain ⟨q, ⟨-, hqi⟩, hqe⟩ := hmem
      rw [hqe] at hqi
      rw [hi] at hqi
      cases hqi
    · rw [startupBuild_gateKeys]
      intro hmem
      simp only [List.mem_map, List.mem_filter] at hmem
      obtain ⟨q, ⟨-, hqi⟩, hqe⟩ := hmem
      rw [hqe] at hqi
      rw [hi] at hqi
      cases hqi
  · intro trace
    constructor
    · rw [runEvents_gateKeys]
      rfl
    · rw [runEvents_served]
      rfl

/-- Witness for C6 on a concrete two-entry catalog with one installed
application. -/
theorem registry_exactly_installed_witness :
    (⟨"idea.desktop", "/idea"⟩ : ProviderEntry)
        ∈ [(⟨"idea.desktop", "/idea"⟩ : ProviderEntry), ⟨"rider.desktop", "/rider"⟩] ∧
    (((startupBuild [⟨"idea.desktop", "/idea"⟩, ⟨"rider.desktop", "/rider"⟩]
        (fun d => d == "idea.desktop") [] (fun _ => true)).served
      = ([(⟨"idea.desktop", "/idea"⟩ : ProviderEntry), ⟨"rider.desktop", "/rider"⟩].filter
          (fun q => (fun d => d == "idea.desktop") q.desktop_id)).map (fun q => q.objpath)) ∧
    ((fun d => d == "idea.desktop") (ProviderEntry.mk "idea.desktop" "/idea").desktop_id = true →
      ((ProviderEntry.mk "idea.desktop" "/idea").desktop_id, (⟨[]⟩ : Mailbox Nat))
          ∈ (startupBuild [⟨"idea.desktop", "/idea"⟩, ⟨"rider.desktop", "/rider"⟩]
              (fun d => d == "idea.desktop") [] (fun _ => true)).mailboxes ∧
      ((ProviderEntry.mk "idea.desktop" "/idea").desktop_id,
          initGate [] (ProviderEntry.mk "idea.desktop" "/idea").desktop_id
            ((fun _ => true) (ProviderEntry.mk "idea.desktop" "/idea").desktop_id))
          ∈ (startupBuild [⟨"idea.desktop", "/idea"⟩, ⟨"rider.desktop", "/rider"⟩]
              (fun d => d == "idea.desktop") [] (fun _ => true)).gates ∧
      (ProviderEntry.mk "idea.desktop" "/idea").objpath
          ∈ (startupBuild [⟨"idea.desktop", "/idea"⟩, ⟨"rider.desktop", "/rider"⟩]
              (fun d => d == "idea.desktop") [] (fun _ => true)).served) ∧
    ((fun d => d == "idea.desktop") (ProviderEntry.mk "idea.desktop" "/idea").desktop_id = false →
      (ProviderEntry.mk "idea.desktop" "/idea").desktop_id
          ∉ ((startupBuild [⟨"idea.desktop", "/idea"⟩, ⟨"rider.desktop", "/rider"⟩]
              (fun d => d == "idea.desktop") [] (fun _ => true)).mailboxes.map Prod.fst) ∧
      (ProviderEntry.mk "idea.desktop" "/idea").desktop_id
          ∉ ((startupBuild [⟨"idea.desktop", "/idea"⟩, ⟨"rider.desktop", "/rider"⟩]
              (fun d => d == "idea.desktop") [] (fun _ => true)).gates.map Prod.fst)) ∧
    (∀ trace : List Event,
      (runEvents (afterStartup [⟨"idea.desktop", "/idea"⟩, ⟨"rider.desktop", "/rider"⟩]
          (fun d => d == "idea.desktop") [] (fun _ => true)) trace).gates.map Prod.fst
        = (startupBuild [⟨"idea.desktop", "/idea"⟩, ⟨"rider.desktop", "/rider"⟩]
            (fun d => d == "idea.desktop") [] (fun _ => true)).gates.map Prod.fst ∧
      (runEvents (afterStartup [⟨"idea.desktop", "/idea"⟩, ⟨"rider.desktop", "/rider"⟩]
          (fun d => d == "idea.desktop") [] (fun _ => true)) trace).served
        = (startupBuild [⟨"idea.desktop", "/idea"⟩, ⟨"rider.desktop", "/rider"⟩]
            (fun d => d == "idea.desktop") [] (fun _ => true)).served)) :=
  ⟨by decide,
   registry_exactly_installed
     [⟨"idea.desktop", "/idea"⟩, ⟨"rider.desktop", "/rider"⟩]
     (fun d => d == "idea.desktop") [] (fun _ => true)
     ⟨"idea.desktop", "/idea"⟩ (by decide)⟩

/-- C10: the settings-change subscription is never unregistered: the code
forgets the settings value instead of dropping it, so after any sequence of
post-startup events the listener is still active and one further
settings-change notification still runs the gate-updating callback on the
current gates. -/
theorem settings_listener_never_unregistered (s0 : ProcState)
    (trace : List Event) (D : List String) (lockOk : String → Bool) :
    SETTINGS_FORGOTTEN = true ∧
    (runEvents (finishStartup s0) trace).listenerActive = true ∧
    (runEvents (finishStartup s0) (trace ++ [Event.settingsChanged D lockOk])).gates
      = onSettingsChanged D lockOk (runEvents (finishStartup s0) trace).gates := by
  have hact : (runEvents (finishStartup s0) trace).listenerActive = true := by
    rw [runEvents_listenerActive]
    simp [finishStartup, SETTINGS_FORGOTTEN]
  refine ⟨rfl, hact, ?_⟩
  show (List.foldl step (finishStartup s0) (trace ++ [Event.settingsChanged D lockOk])).gates
      = onSettingsChanged D lockOk (runEvents (finishStartup s0) trace).gates
  rw [List.foldl_append]
  show (step (runEvents (finishStartup s0) trace) (Event.settingsChanged D lockOk)).gates
      = onSettingsChanged D lockOk (runEvents (finishStartup s0) trace).gates
  simp [step, hact]

/-! ## Connection build and main (main.rs lines 36, 143-165, 224-260) -/

/-- The name requested on the bus (main.rs line 36). -/
def BUSNAME : String := "de.swsnr.searchprovider.Jetbrains"

/-- The `try_fold` over providers (main.rs lines 143-159): each provider's
two objects are served at its path; the first failing `serve_at`
short-circuits the chain with its error. -/
def serveAll (serveOk : String → Bool) (paths : List String) : Except String Unit :=
  match paths with
  | [] => Except.ok ()
  | p :: rest =>
    if serveOk p then serveAll serveOk rest
    else Except.error ("Failed to serve at " ++ p)

/-- The connection build chain (main.rs lines 143-165): serve every
provider path, then the aggregator and log-control paths are folded into
requesting the well-known name and building the connection; every failure
propagates out of `start_dbus_service` as an error. -/
def buildConnection (serveOk : String → Bool) (paths : List String)
    (nameOk : Bool) (connectOk : Bool) : Except String Unit :=
  (serveAll serveOk paths).bind (fun _ =>
    if nameOk then
      if connectOk then Except.ok ()
      else Except.error "Failed to connect to session bus"
    else Except.error ("Failed to acquire name " ++ BUSNAME))

/-- The observable outcome of `main` (main.rs lines 224-260): stdout lines,
the exit status (`none` while the main loop keeps running), the error log,
how many times startup was attempted, and whether the service is serving. -/
structure MainResult where
  output : List String
  exitCode : Option Nat
  logs : List String
  startupAttempts : Nat
  serving : Bool
deriving Repr, DecidableEq

/-- The sort applied to provider labels (main.rs line 228:
`labels.sort_unstable()`), ascending lexicographic order. -/
def sortLabels (labels : List String) : List String :=
  List.insertionSort (fun a b => a ≤ b) labels

/-- `main` (main.rs lines 224-260): with the `--providers` flag it prints
the sorted catalog labels, one per line, and returns (exit 0) without
touching the bus; otherwise it runs `start_dbus_service` once: on success
it enters the main loop (never exits by itself), on error it logs the
cause and calls `std::process::exit(1)`. -/
def mainRun (providersFlag : Bool) (labels : List String)
    (startup : Except String Unit) : MainResult :=
  if providersFlag then
    { output := sortLabels labels, exitCode := some 0, logs := [],
      startupAttempts := 0, serving := false }
  else
    match startup with
    | Except.ok _ =>
      { output := [], exitCode := none, logs := [],
        startupAttempts := 1, serving := true }
    | Except.error e =>
      { output := [], exitCode := some 1,
        logs := ["Failed to start DBus server: " ++ e],
        startupAttempts := 1, serving := false }

/-! ## Helper lemmas for C7 and C9 -/

theorem serveAll_eq_ok (serveOk : String → Bool) (paths : List String) :
    serveAll serveOk paths = Except.ok () ↔ ∀ p ∈ paths, serveOk p = true := by
  induction paths with
  | nil => simp [serveAll]
  | cons p rest ih =>
    cases h : serveOk p <;> simp [serveAll, h, ih]

theorem buildConnection_eq_ok (serveOk : String → Bool) (paths : List String)
    (nameOk : Bool) (connectOk : Bool) :
    buildConnection serveOk paths nameOk connectOk = Except.ok () ↔
      (∀ p ∈ paths, serveOk p = true) ∧ nameOk = true ∧ connectOk = true := by
  rw [← serveAll_eq_ok serveOk paths]
  cases hs : serveAll serveOk paths with
  | error e => simp [buildConnection, hs, Except.bind]
  | ok u =>
    cases u
    cases nameOk <;> cases connectOk <;> simp [buildConnection, hs, Except.bind]

theorem except_unit_cases (x : Except String Unit) :
    x = Except.ok () ∨ ∃ e, x = Except.error e := by
  cases x with
  | ok u => cases u; exact Or.inl rfl
  | error e => exact Or.inr ⟨e, rfl⟩

/-! ## Claims C7, C8, C9 -/

/-- C7: when startup fails, `main` logs the cause and exits with status 1
(non-zero) after exactly one startup attempt, without serving; and every
build-chain failure — a failed `serve_at`, a failed name request, or a
failed bus connection — makes startup fail. -/
theorem startup_failure_exits_nonzero (labels : List String) (e : String)
    (st : Except String Unit) (h : st = Except.error e) :
    (mainRun false labels st).exitCode = some 1 ∧
    (∀ c, (mainRun false labels st).exitCode = some c → c ≠ 0) ∧
    (mainRun false labels st).logs = ["Failed to start DBus server: " ++ e] ∧
    (mainRun false labels st).startupAttempts = 1 ∧
    (mainRun false labels st).serving = false ∧
    (∀ (sOk : String → Bool) (ps : List String) (nOk cOk : Bool),
      ¬((∀ p ∈ ps, sOk p = true) ∧ nOk = true ∧ cOk = true) →
      ∃ e2, buildConnection sOk ps nOk cOk = Except.error e2) := by
  subst h
  refine ⟨rfl, ?_, rfl, rfl, rfl, ?_⟩
  · intro c hc
    simp [mainRun] at hc
    omega
  · intro sOk ps nOk cOk hbad
    rcases except_unit_cases (buildConnection sOk ps nOk cOk) with hok | herr
    · exact absurd ((buildConnection_eq_ok sOk ps nOk cOk).mp hok) hbad
    · exact herr

/-- Witness for C7 at a concrete failed bus connection. -/
theorem startup_failure_exits_nonzero_witness :
    (buildConnection (fun _ => true) ["/a"] true false
        = Except.error "Failed to connect to session bus") ∧
    ((mainRun false ["IDEA"] (buildConnection (fun _ => true) ["/a"] true false)).exitCode
        = some 1 ∧
    (∀ c, (mainRun false ["IDEA"]
        (buildConnection (fun _ => true) ["/a"] true false)).exitCode = some c → c ≠ 0) ∧
    (mainRun false ["IDEA"] (buildConnection (fun _ => true) ["/a"] true false)).logs
        = ["Failed to start DBus server: " ++ "Failed to connect to session bus"] ∧
    (mainRun false ["IDEA"]
        (buildConnection (fun _ => true) ["/a"] true false)).startupAttempts = 1 ∧
    (mainRun false ["IDEA"]
        (buildConnection (fun _ => true) ["/a"] true false)).serving = false ∧
    (∀ (sOk : String → Bool) (ps : List String) (nOk cOk : Bool),
      ¬((∀ p ∈ ps, sOk p = true) ∧ nOk = true ∧ cOk = true) →
      ∃ e2, buildConnection sOk ps nOk cOk = Except.error e2)) :=
  ⟨rfl,
   startup_failure_exits_nonzero ["IDEA"] "Failed to connect to session bus"
     (buildConnection (fun _ => true) ["/a"] true false) rfl⟩

/-- C8: with the `--providers` flag, `main` prints the provider catalog
(one label per line), exits with status 0, does not attempt startup, and
does not serve — regardless of whether a bus connection would have
succeeded. -/
theorem providers_mode (labels : List String) (st : Except String Unit) :
    (mainRun true labels st).output = sortLabels labels ∧
    (mainRun true labels st).exitCode = some 0 ∧
    (mainRun true labels st).startupAttempts = 0 ∧
    (mainRun true labels st).serving = false := by
  refine ⟨rfl, rfl, rfl, rfl⟩

/-- C9: the provider-listing output is the sorted sequence of labels: it is
sorted ascending, it is a permutation of the catalog labels, and any two
orderings of the catalog print the same sequence. -/
theorem providers_output_sorted (l1 l2 : List String)
    (st : Except String Unit) (h : l1.Perm l2) :
    List.Sorted (fun a b => a ≤ b) (mainRun true l1 st).output ∧
    (mainRun true l1 st).output.Perm l1 ∧
    (mainRun true l1 st).output = (mainRun true l2 st).output := by
  have hout : ∀ l : List String, (mainRun true l st).output = sortLabels l :=
    fun l => rfl
  have hsorted : ∀ l : List String,
      List.Sorted (fun a b : String => a ≤ b) (sortLabels l) :=
    fun l => List.sorted_insertionSort _ l
  have hperm : ∀ l : List String, (sortLabels l).Perm l :=
    fun l => List.perm_insertionSort _ l
  refine ⟨by rw [hout]; exact hsorted l1, by rw [hout]; exact hperm l1, ?_⟩
  rw [hout l1, hout l2]
  exact List.eq_of_perm_of_sorted
    (((hperm l1).trans h).trans (hperm l2).symm) (hsorted l1) (hsorted l2)

/-- Witness for C9 on two orderings of a concrete two-label catalog. -/
theorem providers_output_sorted_witness :
    (["Rider", "CLion"] : List String).Perm ["CLion", "Rider"] ∧
    (List.Sorted (fun a b : String => a ≤ b)
        (mainRun true ["Rider", "CLion"] (Except.ok ())).output ∧
    (mainRun true ["Rider", "CLion"] (Except.ok ())).output.Perm ["Rider", "CLion"] ∧
    (mainRun true ["Rider", "CLion"] (Except.ok ())).output
      = (mainRun true ["CLion", "Rider"] (Except.ok ())).output) :=
  ⟨List.Perm.swap "CLion" "Rider" [],
   providers_output_sorted ["Rider", "CLion"] ["CLion", "Rider"] (Except.ok ())
     (List.Perm.swap "CLion" "Rider" [])⟩

end JetbrainsSearch
